import Mathlib

/-!
# Verification of the trends-monitor orchestrator

Shallow embedding of the pure control-flow core of `trends_monitor.py`:
batching, retry, anomaly detection, report assembly, alert grouping,
timeframe normalization and the daily-trigger time computation.
I/O effects (file writes, actual sleeping, network sends) are modelled as
data: produced row tables, event traces and notification records.
-/

namespace TrendsMonitor

/-! ## Python primitives used by the source -/

/-- Python `range(0, stop, step)` for `step > 0`: the multiples of `step`
below `stop`.  For `step = 0` Python raises `ValueError`; we return `[]`
(that case is never exercised by the claims, which assume a positive step). -/
def pyRangeStep (stop step : Nat) : List Nat :=
  if step = 0 then []
  else (List.range ((stop + step - 1) / step)).map (fun k => k * step)

/-- Python slice `l[i:j]` for `0 ≤ i ≤ j` (clamping at the ends like Python). -/
def pySlice (l : List α) (i j : Nat) : List α :=
  (l.drop i).take (j - i)

/-- Does `hay` start with `pat`? (over raw character lists) -/
def listStartsWith [DecidableEq α] : List α → List α → Bool
  | _, [] => true
  | [], _ :: _ => false
  | a :: hs, b :: ps => a = b && listStartsWith hs ps

/-- Does `pat` occur as a contiguous sublist of `hay`? -/
def listContainsSub [DecidableEq α] : List α → List α → Bool
  | [], pat => listStartsWith [] pat
  | x :: t, pat => listStartsWith (x :: t) pat || listContainsSub t pat

/-- Substring test on strings, via the underlying character lists. -/
def strContains (hay pat : String) : Bool :=
  listContainsSub hay.data pat.data

/-- Python `s.startswith(pre)`. -/
def strStartsWith (s pre : String) : Bool :=
  listStartsWith s.data pre.data

/-- Helper for `pySplitChar`: `acc` holds the current field reversed. -/
def splitOnCharAux (c : Char) : List Char → List Char → List (List Char)
  | [], acc => [acc.reverse]
  | x :: xs, acc =>
    if x = c then acc.reverse :: splitOnCharAux c xs []
    else splitOnCharAux c xs (x :: acc)

/-- Python `s.split(sep)` for a one-character separator. -/
def pySplitChar (s : String) (c : Char) : List String :=
  (splitOnCharAux c s.data []).map String.mk

/-- The six characters Python's `str.strip()` / `int(...)` treat as
whitespace. -/
def isPySpace (c : Char) : Bool :=
  c = ' ' || c = '\t' || c = '\n' || c = '\r' || c = '\x0b' || c = '\x0c'

/-- Python `s.strip()`, as a character list. -/
def pyStrip (s : String) : List Char :=
  ((s.data.dropWhile isPySpace).reverse.dropWhile isPySpace).reverse

/-! ## Data model

A per-keyword query result as handled by `trends_monitor.py`: a dict with
optional `rising` / `top` DataFrames whose rows have a `query` and a
`value` column.  A missing key, a `None` value and a non-DataFrame value
are all observationally equivalent in the source (every consumer guards
with `isinstance(..., pd.DataFrame)`), so both collapse to `none`. -/

structure TrendRow where
  query : String
  value : Int
  deriving Repr, DecidableEq

structure QueryData where
  rising : Option (List TrendRow)
  top : Option (List TrendRow)
  deriving Repr, DecidableEq

/-! ## `check_rising_trends` (src/trends_monitor.py lines 84–95) -/

/-- `check_rising_trends(data, keyword, threshold)`: `[]` when `data` is
falsy, has no usable `rising` DataFrame; otherwise the `(query, value)`
pairs of the rows whose `value` strictly exceeds the threshold, appended
in row order exactly as the source's `iterrows` loop does. -/
def check_rising_trends (data : Option QueryData) (threshold : Int) :
    List (String × Int) :=
  match data with
  | none => []
  | some d =>
    match d.rising with
    | none => []
    | some df =>
      df.foldl
        (fun acc row =>
          if row.value > threshold then acc ++ [(row.query, row.value)] else acc)
        []

/-! ## `generate_daily_report` (src/trends_monitor.py lines 97–128) -/

structure ReportRow where
  keyword : String
  related_keywords : String
  value : Int
  category : String
  deriving Repr, DecidableEq

/-- Rows contributed by one keyword's data, `rising` first then `top`,
as the two `iterrows` loops of the source produce them. -/
def reportRowsFor (keyword : String) (data : Option QueryData) : List ReportRow :=
  (match data with
   | none => []
   | some d =>
     match d.rising with
     | none => []
     | some df => df.map (fun row => ⟨keyword, row.query, row.value, "rising"⟩)) ++
  (match data with
   | none => []
   | some d =>
     match d.top with
     | none => []
     | some df => df.map (fun row => ⟨keyword, row.query, row.value, "top"⟩))

/-- `generate_daily_report(results, directory)`: flattens every keyword's
`rising` and `top` rows into one table; returns `none` (the source returns
`None` and writes no file) when the table is empty, otherwise the table
(the source writes it as the CSV artifact and returns its path). -/
def generate_daily_report (results : List (String × Option QueryData)) :
    Option (List ReportRow) :=
  let report_data := results.foldl (fun acc kv => acc ++ reportRowsFor kv.1 kv.2) []
  if report_data.isEmpty then none else some report_data

/-! ## Batch splitting (src/trends_monitor.py lines 214–215 and 270–271)

`for i in range(0, len(l), B): l[i:i + B]` — the slice pattern used both
for keyword batches (`batch_size`) and for alert groups (10). -/

/-- The list of batches the source's slicing loop produces. -/
def sliceBatches (l : List α) (B : Nat) : List (List α) :=
  (pyRangeStep l.length B).map (fun i => pySlice l i (i + B))

/-! ## `run_scheduler` target-time computation (src/trends_monitor.py lines 328–338)

`j` is the value drawn by `random.randint(0, random_delay_minutes)`.
The source first reduces the minute (`schedule_minute = (m + j) % 60`) and
then computes the hour carry **from the already-reduced minute**
(`schedule_hour = (h + (schedule_minute + j) // 60) % 24`). -/

def run_scheduler_target (hour minute random_delay_minutes j : Nat) : Nat × Nat :=
  if random_delay_minutes > 0 then
    let schedule_minute := (minute + j) % 60
    let schedule_hour := (hour + (schedule_minute + j) / 60) % 24
    (schedule_hour, schedule_minute)
  else
    (hour, minute)

/-- The target the spec prescribes: minute `(m + j) % 60`, hour
`(h + (m + j) / 60) % 24` — the minute overflow carried into the hour. -/
def specSchedulerTarget (hour minute j : Nat) : Nat × Nat :=
  ((hour + (minute + j) / 60) % 24, (minute + j) % 60)

/-! ## `get_trends_with_retry` (src/trends_monitor.py lines 180–196)

The retry semantics come from the `backoff.on_exception(backoff.expo,
Exception, max_tries=..., jitter=backoff.full_jitter)` decorator applied to
`get_trends_with_retry`: the wrapped call is attempted up to `max_tries`
times in total, stopping at the first success; when the last allowed
attempt also fails, its exception propagates to the caller.  The backoff
delays (exponential with full jitter) only pace the attempts and do not
affect which value is returned, so they are elided here.  `op k` is the
outcome of attempt `k` (attempts are numbered from 1); the result pairs
the final outcome with the number of attempts performed. -/

def retryFrom (op : Nat → Except E A) (k : Nat) : Nat → Except E A × Nat
  | 0 => (op k, k)
  | 1 => (op k, k)
  | r + 2 =>
    match op k with
    | .ok a => (.ok a, k)
    | .error _ => retryFrom op (k + 1) (r + 1)

/-- `get_trends_with_retry` as a function of the per-attempt outcomes:
first attempt is attempt 1, at most `max_retries` attempts in total. -/
def get_trends_with_retry (op : Nat → Except E A) (max_retries : Nat) :
    Except E A × Nat :=
  retryFrom op 1 max_retries

/-! ## Calendar dates (for `get_date_range_timeframe`)

Python's `datetime` is proleptic Gregorian, restricted to years 1–9999;
`datetime - timedelta(days=n)` that leaves this range raises
`OverflowError`.  The conversions below are the standard civil-calendar
day-count algorithms; within the supported range every integer division
they perform has a non-negative dividend and positive divisor. -/

structure Date where
  year : Int
  month : Nat
  day : Nat
  deriving Repr, DecidableEq

/-- Days since the epoch 1970-01-01 of a civil date. -/
def daysFromCivil (dt : Date) : Int :=
  let y : Int := if dt.month ≤ 2 then dt.year - 1 else dt.year
  let era : Int := (if 0 ≤ y then y else y - 399) / 400
  let yoe : Int := y - era * 400
  let mp : Int := if 2 < dt.month then (dt.month : Int) - 3 else (dt.month : Int) + 9
  let doy : Int := (153 * mp + 2) / 5 + (dt.day : Int) - 1
  let doe : Int := yoe * 365 + yoe / 4 - yoe / 100 + doy
  era * 146097 + doe - 719468

/-- Civil date of a day count (inverse of `daysFromCivil` on valid dates). -/
def civilFromDays (z0 : Int) : Date :=
  let z : Int := z0 + 719468
  let era : Int := (if 0 ≤ z then z else z - 146096) / 146097
  let doe : Int := z - era * 146097
  let yoe : Int := (doe - doe / 1460 + doe / 36524 - doe / 146096) / 365
  let y : Int := yoe + era * 400
  let doy : Int := doe - (365 * yoe + yoe / 4 - yoe / 100)
  let mp : Int := (5 * doy + 2) / 153
  let d : Int := doy - (153 * mp + 2) / 5 + 1
  let m : Int := if mp < 10 then mp + 3 else mp - 9
  ⟨if m ≤ 2 then y + 1 else y, m.toNat, d.toNat⟩

/-- `date - timedelta(days = n)`: `none` models the `OverflowError` Python
raises when the result leaves the years 1–9999 (a huge `n` that overflows
`timedelta` itself raises the same exception and lands in the same case). -/
def dateSubDays (dt : Date) (n : Int) : Option Date :=
  let z := daysFromCivil dt - n
  if daysFromCivil ⟨1, 1, 1⟩ ≤ z ∧ z ≤ daysFromCivil ⟨9999, 12, 31⟩ then
    some (civilFromDays z)
  else
    none

/-- Zero-pad a numeral to `w` characters. -/
def padNum (w : Nat) (n : Nat) : String :=
  let s := toString n
  String.mk (List.replicate (w - s.length) '0') ++ s

/-- `strftime('%Y-%m-%d')`. -/
def fmtDate (dt : Date) : String :=
  padNum 4 dt.year.toNat ++ "-" ++ padNum 2 dt.month ++ "-" ++ padNum 2 dt.day

/-! ## Python `int(str)` (ASCII digits, optional sign, optional single
underscores between digits, surrounding whitespace stripped). -/

/-- After a leading digit: the remaining digits, underscore separators
removed; `none` when the tail is not `(('_')? digit)*`. -/
def parseDigitsRest : List Char → Option (List Char)
  | [] => some []
  | '_' :: c :: cs =>
    if c.isDigit then (parseDigitsRest cs).map (fun l => c :: l) else none
  | ['_'] => none
  | c :: cs =>
    if c.isDigit then (parseDigitsRest cs).map (fun l => c :: l) else none

def natOfDigits (ds : List Char) : Nat :=
  ds.foldl (fun a c => a * 10 + (c.toNat - 48)) 0

/-- Python `int(s)`: `none` models `ValueError`. -/
def pyInt (s : String) : Option Int :=
  match pyStrip s with
  | '-' :: c :: cs =>
    if c.isDigit then
      (parseDigitsRest cs).map (fun ds => -(natOfDigits (c :: ds) : Int))
    else none
  | '+' :: c :: cs =>
    if c.isDigit then
      (parseDigitsRest cs).map (fun ds => (natOfDigits (c :: ds) : Int))
    else none
  | c :: cs =>
    if c.isDigit then
      (parseDigitsRest cs).map (fun ds => (natOfDigits (c :: ds) : Int))
    else none
  | [] => none

/-! ## `get_date_range_timeframe` (src/trends_monitor.py lines 130–151)

`now` stands for `datetime.now()` (only its date matters to the output).
The `except (ValueError, IndexError)` of the source catches the failing
`int(...)` and a missing split component and yields `'now 1-d'`; an
`OverflowError` from the date subtraction is *not* caught and propagates
(modelled as `.error`). -/

def get_date_range_timeframe (now : Date) (timeframe : String) :
    Except String String :=
  if strStartsWith timeframe "last-" then
    match (pySplitChar timeframe '-')[1]? with
    | none => .ok "now 1-d"
    | some part =>
      match pyInt part with
      | none => .ok "now 1-d"
      | some days =>
        match dateSubDays now days with
        | none => .error "OverflowError: date value out of range"
        | some start_date => .ok (fmtDate start_date ++ " " ++ fmtDate now)
  else
    .ok timeframe

/-! ## Alert dispatch (src/trends_monitor.py lines 267–313)

The accumulated `high_rising_trends` triples are sliced into groups of at
most 10 (`for i in range(0, len(high_rising_trends), batch_size)` with
`batch_size = 10`) and one notification is sent per group.  The HTML
bodies are reproduced below; only surrounding indentation whitespace of
the Python triple-quoted literals is elided. -/

structure Notification where
  subject : String
  body : String
  deriving Repr, DecidableEq

deriving instance DecidableEq for Except

/-- `TRENDS_CONFIG['geo'] or 'Global'`. -/
def geoOrGlobal (geo : String) : String :=
  if geo = "" then "Global" else geo

/-- The leading part of `alert_body` (the first f-string). -/
def alertBodyHeader (timeframe geo : String) : String :=
  "\n<h2>📊 High Rising Trends Alert</h2>\n<hr>\n<h3>📌 Query Parameters:</h3>\n<ul>\n<li>🕒 Time Range: " ++
    timeframe ++
    "</li>\n<li>🌍 Region: " ++
    geoOrGlobal geo ++
    "</li>\n</ul>\n<h3>📈 Significant Growth Trends:</h3>\n<table border=\"1\" cellpadding=\"5\" style=\"border-collapse: collapse;\">\n<tr>\n<th>🔍 Base Keyword</th>\n<th>🔗 Related Query</th>\n<th>📈 Growth</th>\n</tr>\n"

/-- One `<tr>` appended per `(keyword, related_keywords, value)` triple. -/
def alertRowHtml (t : String × String × Int) : String :=
  "\n<tr>\n<td><strong>🎯 " ++ t.1 ++ "</strong></td>\n<td>➡️ " ++ t.2.1 ++
    "</td>\n<td align=\"right\" style=\"color: #28a745;\">⬆️ " ++ toString t.2.2 ++
    "%</td>\n</tr>\n"

/-- The trailer appended only when `batch_number < total_batches`. -/
def alertBatchMarker (batch_number total_batches : Nat) : String :=
  "<p><i>This is batch " ++ toString batch_number ++ " of " ++
    toString total_batches ++ ". More results will follow.</i></p>"

/-- The phrase through which a notification body states a group index and
the total group count. -/
def batchPhrase (batch_number total_batches : Nat) : String :=
  "This is batch " ++ toString batch_number ++ " of " ++ toString total_batches

/-- The notification built by the loop iteration with slice start `i`. -/
def alertNotification (timeframe geo : String)
    (trends : List (String × String × Int)) (i : Nat) : Notification :=
  let batch_trends := pySlice trends i (i + 10)
  let batch_number := i / 10 + 1
  let total_batches := (trends.length + 10 - 1) / 10
  let body :=
    batch_trends.foldl (fun acc t => acc ++ alertRowHtml t)
      (alertBodyHeader timeframe geo) ++ "</table>"
  let body :=
    if batch_number < total_batches then
      body ++ alertBatchMarker batch_number total_batches
    else body
  { subject := "📊 Rising Trends Alert (" ++ toString batch_number ++ "/" ++
      toString total_batches ++ ")"
    body := body }

/-- All notifications of one run's alert dispatch, in send order.  (The
source guards the loop with `if high_rising_trends:`; an empty list yields
no notifications either way.) -/
def alertNotifications (timeframe geo : String)
    (trends : List (String × String × Int)) : List Notification :=
  (pyRangeStep trends.length 10).map (alertNotification timeframe geo trends)

/-- The alert groups themselves (`high_rising_trends[i:i + batch_size]`). -/
def alertGroups (trends : List (String × String × Int)) :
    List (List (String × String × Int)) :=
  sliceBatches trends 10

/-! ## The batch loop of `process_trends` (src/trends_monitor.py lines 210–233)
together with `process_keywords_batch` (lines 153–178)

The fetch (`get_trends_with_retry`, with its retries already folded in) is
a parameter returning either the per-keyword results of a batch or the
exception that escaped the retries.  `process_keywords_batch` catches that
exception and returns `False`; on success it accumulates each truthy
result into `all_results` (dict assignment) and the above-threshold rising
pairs into `high_rising_trends`.  File persistence (`save_related_queries`
/ `os.rename`) is an external side effect and is elided.  The loop is
traced: one `batch` event per slice and, for a *successful* non-final
batch, one `sleepWait` event for `batch_interval + random.uniform(0, 60)`
(the draw for loop index `i` is `jitter i`); a failed batch `continue`s
past the sleep. -/

structure RunState where
  all_results : List (String × QueryData)
  high_rising_trends : List (String × String × Int)
  deriving Repr, DecidableEq

def initialRunState : RunState := ⟨[], []⟩

/-- Python dict assignment `d[k] = v` on an insertion-ordered dict. -/
def updateAssoc (m : List (String × QueryData)) (k : String) (v : QueryData) :
    List (String × QueryData) :=
  if m.any (fun kv => kv.1 = k) then
    m.map (fun kv => if kv.1 = k then (k, v) else kv)
  else m ++ [(k, v)]

/-- `process_keywords_batch`: returns the updated accumulators and the
`True`/`False` success flag. -/
def process_keywords_batch
    (fetch : List String → Except String (List (String × Option QueryData)))
    (threshold : Int) (keywords_batch : List String) (st : RunState) :
    RunState × Bool :=
  match fetch keywords_batch with
  | .error _ => (st, false)
  | .ok results =>
    (results.foldl
      (fun s kv =>
        match kv.2 with
        | none => s
        | some data =>
          let rising_trends := check_rising_trends (some data) threshold
          { all_results := updateAssoc s.all_results kv.1 data
            high_rising_trends :=
              s.high_rising_trends ++
                rising_trends.map (fun rt => (kv.1, rt.1, rt.2)) })
      st, true)

inductive RunEvent where
  | batch (keywords : List String) (success : Bool)
  | sleepWait (seconds : ℚ)
  deriving Repr, DecidableEq

def RunEvent.isSleep : RunEvent → Bool
  | .sleepWait _ => true
  | _ => false

/-- The batch slices a trace attempted, in order. -/
def batchEvents (evs : List RunEvent) : List (List String) :=
  evs.filterMap fun e =>
    match e with
    | .batch b _ => some b
    | _ => none

/-- The `for i in range(0, len(KEYWORDS), batch_size)` loop body, over the
remaining loop indices. -/
def processBatchesLoop
    (fetch : List String → Except String (List (String × Option QueryData)))
    (keywords : List String) (B : Nat) (threshold : Int)
    (batch_interval : ℚ) (jitter : Nat → ℚ) :
    List Nat → RunState → RunState × List RunEvent
  | [], st => (st, [])
  | i :: rest, st =>
    let keywords_batch := pySlice keywords i (i + B)
    let res := process_keywords_batch fetch threshold keywords_batch st
    let next := processBatchesLoop fetch keywords B threshold batch_interval
      jitter rest res.1
    if res.2 then
      if i + B < keywords.length then
        (next.1, .batch keywords_batch true ::
          .sleepWait (batch_interval + jitter i) :: next.2)
      else
        (next.1, .batch keywords_batch true :: next.2)
    else
      (next.1, .batch keywords_batch false :: next.2)

/-- The batch-processing phase of `process_trends`: accumulated state and
event trace of one run. -/
def process_trends_run
    (fetch : List String → Except String (List (String × Option QueryData)))
    (keywords : List String) (B : Nat) (threshold : Int)
    (batch_interval : ℚ) (jitter : Nat → ℚ) : RunState × List RunEvent :=
  processBatchesLoop fetch keywords B threshold batch_interval jitter
    (pyRangeStep keywords.length B) initialRunState

/-! ## Helper lemmas -/

theorem foldl_filter_append {α β : Type} {p : α → Prop} [DecidablePred p]
    (f : α → β) :
    ∀ (l : List α) (acc : List β),
      l.foldl (fun a x => if p x then a ++ [f x] else a) acc =
        acc ++ (l.filter (fun x => p x)).map f
  | [], acc => by simp
  | x :: l, acc => by
    by_cases h : p x <;>
      simp [List.filter_cons, h, foldl_filter_append f l]

theorem foldl_append_flatten {α β : Type} (f : α → List β) :
    ∀ (l : List α) (acc : List β),
      l.foldl (fun a x => a ++ f x) acc = acc ++ (l.map f).flatten
  | [], acc => by simp
  | x :: l, acc => by
    simp [foldl_append_flatten f l]

/-! ## Claims -/

/-- C1: the spec's scheduler-target computation carries the minute
overflow into the hour; the code reduces the minute first and then
computes the carry from the already-reduced minute, so the carry is lost.
Evaluation at the failing inputs: with hour 23, minute 50,
`random_delay_minutes` 15 and a jitter draw of 15 (the largest draw
`random.randint(0, 15)` can produce) the code yields 23:05 where the
claim's formula yields 00:05; at the spec's own (out-of-range) draw of 20
the code yields 23:10, not the claimed 00:10.  The slip also produces a
spurious carry: a draw of 5 (no minute overflow, target should stay
23:55) yields 00:55 because the reduced minute 55 plus the draw 5 reaches
60. -/
theorem c1_scheduler_target_evaluation :
    run_scheduler_target 23 50 15 15 = (23, 5) ∧
    specSchedulerTarget 23 50 15 = (0, 5) ∧
    run_scheduler_target 23 50 15 20 = (23, 10) ∧
    specSchedulerTarget 23 50 20 = (0, 10) ∧
    run_scheduler_target 23 50 15 5 = (0, 55) ∧
    specSchedulerTarget 23 50 5 = (23, 55) := by
  decide

/-- C6: `check_rising_trends` returns no alert when the data is absent,
when the `rising` sequence is absent and when it is empty; otherwise it
returns exactly the `(query, value)` pairs of the rows whose value
strictly exceeds the threshold, in row order; on values
`[100, 501, 500, 502]` with threshold 500 it returns the 501 and 502
rows, in that order. -/
theorem c6_check_rising_trends :
    (∀ threshold : Int, check_rising_trends none threshold = []) ∧
    (∀ (top : Option (List TrendRow)) (threshold : Int),
      check_rising_trends (some ⟨none, top⟩) threshold = []) ∧
    (∀ (top : Option (List TrendRow)) (threshold : Int),
      check_rising_trends (some ⟨some [], top⟩) threshold = []) ∧
    (∀ (rows : List TrendRow) (top : Option (List TrendRow)) (threshold : Int),
      check_rising_trends (some ⟨some rows, top⟩) threshold =
        (rows.filter (fun r => threshold < r.value)).map
          (fun r => (r.query, r.value))) ∧
    check_rising_trends
        (some ⟨some [⟨"q1", 100⟩, ⟨"q2", 501⟩, ⟨"q3", 500⟩, ⟨"q4", 502⟩], none⟩)
        500 = [("q2", 501), ("q4", 502)] := by
  refine ⟨fun _ => rfl, fun _ _ => rfl, fun _ _ => rfl,
    fun rows top threshold => ?_, by decide⟩
  have h := foldl_filter_append (p := fun r : TrendRow => threshold < r.value)
    (fun r : TrendRow => (r.query, r.value)) rows []
  simpa [check_rising_trends] using h

/-- C8: `generate_daily_report` produces no artifact when no report row
exists across all results, and exactly two rows (one `rising`, one `top`)
for a single keyword with one rising and one top row. -/
theorem c8_generate_daily_report :
    (∀ (results : List (String × Option QueryData)),
      (∀ kv ∈ results, reportRowsFor kv.1 kv.2 = []) →
      generate_daily_report results = none) ∧
    generate_daily_report
        [("k", some ⟨some [⟨"r", 10⟩], some [⟨"t", 20⟩]⟩)] =
      some [⟨"k", "r", 10, "rising"⟩, ⟨"k", "t", 20, "top"⟩] := by
  constructor
  · intro results h
    have hrows :
        results.foldl (fun acc kv => acc ++ reportRowsFor kv.1 kv.2) [] = [] := by
      rw [foldl_append_flatten]
      simp only [List.nil_append, List.flatten_eq_nil_iff]
      intro l hl
      rcases List.mem_map.mp hl with ⟨kv, hkv, rfl⟩
      exact h kv hkv
    simp [generate_daily_report, hrows]
  · decide

/-- Witness for C8: a result set with one keyword and absent data has no
rows, so no artifact is produced. -/
theorem c8_generate_daily_report_witness :
    generate_daily_report [("k", (none : Option QueryData))] = none :=
  c8_generate_daily_report.1 [("k", none)] (by decide)

theorem sliceBatches_nil {α : Type} (B : Nat) :
    sliceBatches ([] : List α) B = [] := by
  rcases Nat.eq_zero_or_pos B with h | h
  · simp [sliceBatches, pyRangeStep, h]
  · simp [sliceBatches, pyRangeStep, h.ne',
      Nat.div_eq_of_lt (show B - 1 < B by omega)]

theorem sliceBatches_cons {α : Type} (l : List α) (B : Nat) (hB : 0 < B)
    (hl : l ≠ []) :
    sliceBatches l B = l.take B :: sliceBatches (l.drop B) B := by
  have hN : 0 < l.length := List.length_pos.mpr hl
  have hcount : (l.length + B - 1) / B = ((l.drop B).length + B - 1) / B + 1 := by
    rw [List.length_drop]
    rcases le_or_lt l.length B with hle | hlt
    · have h1 : l.length - B = 0 := by omega
      have h2 : (0 + B - 1) / B = 0 := Nat.div_eq_of_lt (by omega)
      have h3 : (l.length + B - 1) / B = 1 :=
        Nat.div_eq_of_lt_le (by omega) (by omega)
      rw [h1, h2, h3]
    · have h1 : l.length - B + B - 1 = l.length - 1 := by omega
      have h2 : l.length + B - 1 = l.length - 1 + B := by omega
      rw [h1, h2, Nat.add_div_right _ hB]
  rw [sliceBatches, sliceBatches, pyRangeStep, pyRangeStep]
  simp only [if_neg hB.ne']
  rw [hcount, List.range_succ_eq_map]
  simp only [List.map_cons, List.map_map]
  congr 1
  · simp [pySlice]
  · apply List.map_congr_left
    intro k _
    simp only [Function.comp_apply]
    have h1 : Nat.succ k * B = B + k * B := by rw [Nat.succ_mul]; omega
    simp [pySlice, List.drop_drop, h1, Nat.add_sub_cancel_left]

theorem sliceBatches_length {α : Type} (l : List α) (B : Nat) (hB : 0 < B) :
    (sliceBatches l B).length = (l.length + B - 1) / B := by
  simp [sliceBatches, pyRangeStep, hB.ne']

theorem sliceBatches_size_le {α : Type} (l : List α) (B : Nat) :
    ∀ b ∈ sliceBatches l B, b.length ≤ B := by
  intro b hb
  rw [sliceBatches] at hb
  rcases List.mem_map.mp hb with ⟨i, _, rfl⟩
  calc (pySlice l i (i + B)).length ≤ i + B - i := List.length_take_le _ _
    _ ≤ B := by omega

theorem sliceBatches_flatten {α : Type} (B : Nat) (hB : 0 < B) :
    ∀ (l : List α), (sliceBatches l B).flatten = l
  | l => by
    by_cases hl : l = []
    · subst hl; simp [sliceBatches_nil]
    · rw [sliceBatches_cons l B hB hl]
      have ih := sliceBatches_flatten B hB (l.drop B)
      simp [ih, List.take_append_drop]
  termination_by l => l.length
  decreasing_by
    simp only [List.length_drop]
    exact Nat.sub_lt (List.length_pos.mpr hl) hB

/-- `(N + B - 1) / B` in `Nat` arithmetic is the ceiling `⌈N / B⌉`. -/
theorem nat_ceil_div (N B : Nat) (hB : 0 < B) :
    (⌈(N : ℚ) / (B : ℚ)⌉ : ℤ) = ((N + B - 1) / B : Nat) := by
  have hBQ : (0 : ℚ) < (B : ℚ) := by exact_mod_cast hB
  set q := (N + B - 1) / B with hq
  have hdm := Nat.div_add_mod (N + B - 1) B
  have hmod := Nat.mod_lt (N + B - 1) hB
  rw [← hq] at hdm
  have hN_le : N ≤ B * q := by omega
  have hN_gt : B * q < N + B := by omega
  have hcast_le : (N : ℚ) ≤ (B : ℚ) * (q : ℚ) := by exact_mod_cast hN_le
  have hcast_gt : (B : ℚ) * (q : ℚ) < (N : ℚ) + (B : ℚ) := by exact_mod_cast hN_gt
  rw [Int.ceil_eq_iff]
  constructor
  · push_cast
    rw [lt_div_iff₀ hBQ]
    nlinarith [hcast_gt]
  · push_cast
    rw [div_le_iff₀ hBQ]
    nlinarith [hcast_le]

/-- Index `k` of the batch list is the slice starting at `k * B`. -/
theorem sliceBatches_getElem {α : Type} (l : List α) (B k : Nat) (hB : 0 < B)
    (hk : k < (l.length + B - 1) / B) :
    (sliceBatches l B)[k]? = some (pySlice l (k * B) (k * B + B)) := by
  rw [sliceBatches, pyRangeStep, if_neg hB.ne']
  rw [List.getElem?_map, List.getElem?_map, List.getElem?_range hk]
  rfl

/-- Every batch before the last has size exactly `B`. -/
theorem sliceBatches_size_eq {α : Type} (l : List α) (B k : Nat) (hB : 0 < B)
    (hk : k + 1 < (sliceBatches l B).length) :
    ∃ b, (sliceBatches l B)[k]? = some b ∧ b.length = B := by
  rw [sliceBatches_length l B hB] at hk
  refine ⟨pySlice l (k * B) (k * B + B),
    sliceBatches_getElem l B k hB (by omega), ?_⟩
  have h2 : k + 2 ≤ (l.length + B - 1) / B := hk
  have h3 : (k + 2) * B ≤ l.length + B - 1 := (Nat.le_div_iff_mul_le hB).mp h2
  have hexp : (k + 2) * B = k * B + 2 * B := by ring
  have hbound : k * B + B ≤ l.length := by omega
  simp only [pySlice, List.length_take, List.length_drop,
    Nat.add_sub_cancel_left]
  exact inf_eq_left.mpr (by omega)

/-- C4: for a positive batch size `B`, the source's slicing loop yields
exactly `⌈N / B⌉` batches, each of length at most `B` and all but the
last of length exactly `B` (only the last possibly smaller), whose
ordered concatenation is the original keyword list. -/
theorem c4_batching (l : List String) (B : Nat) (hB : 0 < B) :
    ((sliceBatches l B).length : ℤ) = ⌈(l.length : ℚ) / (B : ℚ)⌉ ∧
    (∀ b ∈ sliceBatches l B, b.length ≤ B) ∧
    (∀ k, k + 1 < (sliceBatches l B).length →
      ∃ b, (sliceBatches l B)[k]? = some b ∧ b.length = B) ∧
    (sliceBatches l B).flatten = l := by
  refine ⟨?_, sliceBatches_size_le l B,
    fun k hk => sliceBatches_size_eq l B k hB hk, sliceBatches_flatten B hB l⟩
  rw [sliceBatches_length l B hB, nat_ceil_div l.length B hB]

/-- Witness for C4 at `l = ["a", "b", "c"]`, `B = 2`: two batches, the
first (non-last) of size exactly 2. -/
theorem c4_batching_witness :
    ((sliceBatches ["a", "b", "c"] 2).length : ℤ) = ⌈(3 : ℚ) / (2 : ℚ)⌉ ∧
    (∀ b ∈ sliceBatches ["a", "b", "c"] 2, b.length ≤ 2) ∧
    (∃ b, (sliceBatches ["a", "b", "c"] 2)[0]? = some b ∧ b.length = 2) ∧
    (sliceBatches ["a", "b", "c"] 2).flatten = ["a", "b", "c"] := by
  have h := c4_batching ["a", "b", "c"] 2 (by decide)
  exact ⟨h.1, h.2.1, h.2.2.1 0 (by decide), h.2.2.2⟩

theorem retryFrom_all_fail {E A : Type} (op : Nat → Except E A)
    (h : ∀ j, (op j).isOk = false) :
    ∀ (r k : Nat), 0 < r → retryFrom op k r = (op (k + r - 1), k + r - 1)
  | 0, _, hr => absurd hr (by omega)
  | 1, k, _ => by simp [retryFrom]
  | r + 2, k, _ => by
    rw [retryFrom]
    cases hok : op k with
    | ok a =>
      have hk := h k
      rw [hok] at hk
      simp [Except.isOk, Except.toBool] at hk
    | error e =>
      have ih := retryFrom_all_fail op h (r + 1) (k + 1) (by omega)
      rw [ih]
      have harith : k + 1 + (r + 1) - 1 = k + (r + 2) - 1 := by omega
      rw [harith]

theorem retryFrom_succeeds {E A : Type} (op : Nat → Except E A) (a : A) :
    ∀ (r s k : Nat), s ≤ k → k + 1 ≤ s + r →
      (∀ j, s ≤ j → j < k → (op j).isOk = false) → op k = .ok a →
      retryFrom op s r = (.ok a, k)
  | 0, _, _, hsk, hkr, _, _ => absurd hkr (by omega)
  | 1, s, k, hsk, hkr, _, hk => by
    have hks : k = s := by omega
    subst hks
    simp [retryFrom, hk]
  | r + 2, s, k, hsk, hkr, hfail, hk => by
    rw [retryFrom]
    by_cases hks : k = s
    · subst hks
      rw [hk]
    · have hlt : s < k := by omega
      have hf := hfail s (le_refl s) hlt
      cases hok : op s with
      | ok b =>
        rw [hok] at hf
        simp [Except.isOk, Except.toBool] at hf
      | error e =>
        exact retryFrom_succeeds op a (r + 1) (s + 1) k (by omega) (by omega)
          (fun j hj1 hj2 => hfail j (by omega) hj2) hk

/-- C5: the retry wrapper performs exactly `max_retries` attempts and
propagates the final attempt's error when every attempt fails; it
performs exactly `k` attempts and returns the success value when attempt
`k ≤ max_retries` succeeds after `k - 1` failures (no retry after a
success). -/
theorem c5_retry {E A : Type} :
    (∀ (op : Nat → Except E A) (max_retries : Nat), 0 < max_retries →
      (∀ j, (op j).isOk = false) →
      get_trends_with_retry op max_retries = (op max_retries, max_retries)) ∧
    (∀ (op : Nat → Except E A) (max_retries k : Nat) (a : A),
      0 < k → k ≤ max_retries →
      (∀ j, 0 < j → j < k → (op j).isOk = false) → op k = .ok a →
      get_trends_with_retry op max_retries = (.ok a, k)) := by
  constructor
  · intro op m hm h
    have hall := retryFrom_all_fail op h m 1 hm
    simpa [get_trends_with_retry, Nat.add_sub_cancel_left] using hall
  · intro op m k a hk hkm hfail hok
    exact retryFrom_succeeds op a m 1 k hk (by omega)
      (fun j h1 h2 => hfail j h1 h2) hok

/-- Witness for C5: an always-failing operation with `max_retries = 3`
propagates the error after 3 attempts; an operation failing on attempt 1
and succeeding on attempt 2 returns the value after exactly 2 attempts. -/
theorem c5_retry_witness :
    get_trends_with_retry (fun _ => (.error "boom" : Except String Nat)) 3 =
      (.error "boom", 3) ∧
    get_trends_with_retry
        (fun j => if j < 2 then (.error "e" : Except String Nat) else .ok 42) 3 =
      (.ok 42, 2) := by
  constructor
  · exact (@c5_retry String Nat).1 (fun _ => .error "boom") 3 (by decide)
      (fun _ => rfl)
  · exact (@c5_retry String Nat).2
      (fun j => if j < 2 then .error "e" else .ok 42) 3 2 42 (by decide)
      (by decide)
      (fun j h1 h2 => by
        have hj : j = 1 := by omega
        subst hj
        rfl)
      (by rfl)

/-- C10 (amended): `get_date_range_timeframe` is the identity on strings
not starting with `'last-'`; on `'last-...'` strings whose second
`'-'`-component parses as an integer it returns the
`'YYYY-MM-DD YYYY-MM-DD'` range from `now - days` to `now` whenever the
subtraction stays inside `datetime`'s year range 1–9999, and propagates
the uncaught `OverflowError` when it does not; when the component does
not parse it returns the fallback `'now 1-d'` rather than raising. -/
theorem c10_timeframe (now : Date) :
    (∀ tf : String, strStartsWith tf "last-" = false →
      get_date_range_timeframe now tf = .ok tf) ∧
    (∀ (tf part : String) (days : Int) (start_date : Date),
      strStartsWith tf "last-" = true →
      (pySplitChar tf '-')[1]? = some part →
      pyInt part = some days →
      dateSubDays now days = some start_date →
      get_date_range_timeframe now tf =
        .ok (fmtDate start_date ++ " " ++ fmtDate now)) ∧
    (∀ (tf part : String) (days : Int),
      strStartsWith tf "last-" = true →
      (pySplitChar tf '-')[1]? = some part →
      pyInt part = some days →
      dateSubDays now days = none →
      get_date_range_timeframe now tf =
        .error "OverflowError: date value out of range") ∧
    (∀ (tf part : String),
      strStartsWith tf "last-" = true →
      (pySplitChar tf '-')[1]? = some part →
      pyInt part = none →
      get_date_range_timeframe now tf = .ok "now 1-d") := by
  refine ⟨fun tf h => ?_, fun tf part days sd h1 h2 h3 h4 => ?_,
    fun tf part days h1 h2 h3 h4 => ?_, fun tf part h1 h2 h3 => ?_⟩ <;>
    simp [get_date_range_timeframe, *]

/-- C10 counterexample: `'last-1000000-d'` is of the form `'last-N-d'`
with integer `N`, yet the source raises an uncaught `OverflowError`
(the subtraction leaves `datetime`'s range) instead of returning a date
range. -/
theorem c10_counterexample :
    get_date_range_timeframe ⟨2026, 10, 12⟩ "last-1000000-d" =
      .error "OverflowError: date value out of range" := by
  decide

/-- Witness for C10 at `now = 2026-10-12`: a non-`'last-'` timeframe is
returned unchanged, `'last-3-d'` yields the 3-day range, and the
malformed `'last-x-d'` yields the fallback. -/
theorem c10_timeframe_witness :
    get_date_range_timeframe ⟨2026, 10, 12⟩ "now 7-d" = .ok "now 7-d" ∧
    get_date_range_timeframe ⟨2026, 10, 12⟩ "last-3-d" =
      .ok (fmtDate ⟨2026, 10, 9⟩ ++ " " ++ fmtDate ⟨2026, 10, 12⟩) ∧
    fmtDate ⟨2026, 10, 9⟩ ++ " " ++ fmtDate ⟨2026, 10, 12⟩ =
      "2026-10-09 2026-10-12" ∧
    get_date_range_timeframe ⟨2026, 10, 12⟩ "last-x-d" = .ok "now 1-d" :=
  ⟨(c10_timeframe ⟨2026, 10, 12⟩).1 "now 7-d" (by decide),
   (c10_timeframe ⟨2026, 10, 12⟩).2.1 "last-3-d" "3" 3 ⟨2026, 10, 9⟩
     (by decide) (by decide) (by decide) (by decide),
   by decide,
   (c10_timeframe ⟨2026, 10, 12⟩).2.2.2 "last-x-d" "x" (by decide) (by decide)
     (by decide)⟩

theorem listStartsWith_nil {α : Type} [DecidableEq α] (hay : List α) :
    listStartsWith hay [] = true := by
  cases hay <;> rfl

theorem listStartsWith_append {α : Type} [DecidableEq α] :
    ∀ (p ys : List α), listStartsWith (p ++ ys) p = true
  | [], ys => listStartsWith_nil ys
  | a :: p, ys => by
    simp [listStartsWith, listStartsWith_append p ys]

theorem listContainsSub_of_startsWith {α : Type} [DecidableEq α]
    (hay p : List α) (h : listStartsWith hay p = true) :
    listContainsSub hay p = true := by
  cases hay with
  | nil => exact h
  | cons x t => simp [listContainsSub, h]

theorem listContainsSub_middle {α : Type} [DecidableEq α] :
    ∀ (xs p ys : List α), listContainsSub (xs ++ p ++ ys) p = true
  | [], p, ys =>
    listContainsSub_of_startsWith _ _ (by simpa using listStartsWith_append p ys)
  | x :: xs, p, ys => by
    have ih := listContainsSub_middle xs p ys
    rw [List.append_assoc] at ih
    simp only [List.cons_append, List.append_assoc]
    simp [listContainsSub, ih]

/-- A pattern placed (strictly inside) a string is found by `strContains`. -/
theorem strContains_middle (s1 p s2 : String) :
    strContains (s1 ++ (p ++ s2)) p = true := by
  show listContainsSub (s1 ++ (p ++ s2)).data p.data = true
  have h : (s1 ++ (p ++ s2)).data = s1.data ++ p.data ++ s2.data := by
    simp [String.data_append]
  rw [h]
  exact listContainsSub_middle s1.data p.data s2.data

/-- Any body extended with the `alertBatchMarker` trailer contains the
`batchPhrase` for those indices. -/
theorem strContains_marker (core : String) (bn tb : Nat) :
    strContains (core ++ alertBatchMarker bn tb) (batchPhrase bn tb) = true := by
  show listContainsSub (core ++ alertBatchMarker bn tb).data
    (batchPhrase bn tb).data = true
  have h : (core ++ alertBatchMarker bn tb).data =
      (core.data ++ ("<p><i>" : String).data) ++ (batchPhrase bn tb).data ++
        (". More results will follow.</i></p>" : String).data := by
    have hlit : ("<p><i>This is batch " : String).data =
        ("<p><i>" : String).data ++ ("This is batch " : String).data := by decide
    simp [alertBatchMarker, batchPhrase, String.data_append, hlit]
  rw [h]
  exact listContainsSub_middle _ _ _

/-- Index `k` of the notification list is the notification for slice
start `k * 10`. -/
theorem alertNotifications_get (tf geo : String)
    (trends : List (String × String × Int)) (k : Nat)
    (hk : k < (trends.length + 10 - 1) / 10) :
    (alertNotifications tf geo trends)[k]? =
      some (alertNotification tf geo trends (k * 10)) := by
  rw [alertNotifications, pyRangeStep]
  rw [if_neg (by decide)]
  rw [List.getElem?_map, List.getElem?_map, List.getElem?_range hk]
  rfl

/-- The body of the `k`-th notification, for `k` before the last group,
contains the `batchPhrase` naming its 1-based index and the group count. -/
theorem alertNotification_body_marker (tf geo : String)
    (trends : List (String × String × Int)) (k : Nat)
    (hk : k + 1 < (trends.length + 10 - 1) / 10) :
    strContains (alertNotification tf geo trends (k * 10)).body
      (batchPhrase (k + 1) ((trends.length + 10 - 1) / 10)) = true := by
  have hbn : k * 10 / 10 = k := by omega
  unfold alertNotification
  simp only [hbn]
  rw [if_pos hk]
  exact strContains_marker _ _ _

/-- The subject of the `k`-th notification states `(k+1/total)`. -/
theorem alertNotification_subject (tf geo : String)
    (trends : List (String × String × Int)) (k : Nat) :
    (alertNotification tf geo trends (k * 10)).subject =
      "📊 Rising Trends Alert (" ++ toString (k + 1) ++ "/" ++
        toString ((trends.length + 10 - 1) / 10) ++ ")" := by
  have hbn : k * 10 / 10 = k := by omega
  unfold alertNotification
  simp only [hbn]

/-- 11 accumulated alerts: enough for two groups (10 + 1). -/
def ex11 : List (String × String × Int) :=
  [("k1", "r1", 501), ("k2", "r2", 502), ("k3", "r3", 503), ("k4", "r4", 504),
   ("k5", "r5", 505), ("k6", "r6", 506), ("k7", "r7", 507), ("k8", "r8", 508),
   ("k9", "r9", 509), ("k10", "r10", 510), ("k11", "r11", 511)]

/-- 23 accumulated alerts: three groups of sizes 10, 10, 3. -/
def ex23 : List (String × String × Int) :=
  [("k1", "r1", 501), ("k2", "r2", 502), ("k3", "r3", 503), ("k4", "r4", 504),
   ("k5", "r5", 505), ("k6", "r6", 506), ("k7", "r7", 507), ("k8", "r8", 508),
   ("k9", "r9", 509), ("k10", "r10", 510), ("k11", "r11", 511),
   ("k12", "r12", 512), ("k13", "r13", 513), ("k14", "r14", 514),
   ("k15", "r15", 515), ("k16", "r16", 516), ("k17", "r17", 517),
   ("k18", "r18", 518), ("k19", "r19", 519), ("k20", "r20", 520),
   ("k21", "r21", 521), ("k22", "r22", 522), ("k23", "r23", 523)]

/-- C2 (amended): when more than one group exists, every group *before
the last* gets a body stating its index and the total group count, and
every group's *subject* states them; the last group's body does not carry
the statement (shown at a concrete input by the counterexample). -/
theorem c2_group_body_statement (tf geo : String)
    (trends : List (String × String × Int)) :
    (∀ k, k + 1 < (trends.length + 10 - 1) / 10 →
      ∃ notif, (alertNotifications tf geo trends)[k]? = some notif ∧
        strContains notif.body
          (batchPhrase (k + 1) ((trends.length + 10 - 1) / 10)) = true) ∧
    (∀ k, k < (trends.length + 10 - 1) / 10 →
      ∃ notif, (alertNotifications tf geo trends)[k]? = some notif ∧
        notif.subject = "📊 Rising Trends Alert (" ++ toString (k + 1) ++ "/" ++
          toString ((trends.length + 10 - 1) / 10) ++ ")") := by
  constructor
  · intro k hk
    exact ⟨alertNotification tf geo trends (k * 10),
      alertNotifications_get tf geo trends k (by omega),
      alertNotification_body_marker tf geo trends k hk⟩
  · intro k hk
    exact ⟨alertNotification tf geo trends (k * 10),
      alertNotifications_get tf geo trends k hk,
      alertNotification_subject tf geo trends k⟩

set_option maxRecDepth 100000 in
/-- C2 counterexample: with 11 accumulated alerts there are two groups,
yet the second (last) group's body neither contains the
`'This is batch 2 of 2'` phrase nor the words `'2 of 2'` at all — the
index/total statement appears only in its subject. -/
theorem c2_counterexample :
    (alertNotifications "now 7-d" "" ex11).length = 2 ∧
    strContains (((alertNotifications "now 7-d" "" ex11).getD 1 ⟨"", ""⟩).body)
      (batchPhrase 2 2) = false ∧
    strContains (((alertNotifications "now 7-d" "" ex11).getD 1 ⟨"", ""⟩).body)
      "2 of 2" = false := by
  refine ⟨by decide, by decide, by decide⟩

/-- Witness for C2 at `ex11`: the first group (of two) does get the body
statement, with the expected subject. -/
theorem c2_group_body_statement_witness :
    (∃ notif, (alertNotifications "now 7-d" "" ex11)[0]? = some notif ∧
      strContains notif.body (batchPhrase 1 2) = true) ∧
    (∃ notif, (alertNotifications "now 7-d" "" ex11)[1]? = some notif ∧
      notif.subject =
        "📊 Rising Trends Alert (" ++ toString 2 ++ "/" ++ toString 2 ++ ")") := by
  constructor
  · have h := (c2_group_body_statement "now 7-d" "" ex11).1 0 (by decide)
    simpa using h
  · have h := (c2_group_body_statement "now 7-d" "" ex11).2 1 (by decide)
    simpa using h

/-- C7: the dispatcher's groups are the consecutive 10-slices: their
count is `⌈len / 10⌉`, each has at most 10 alerts, their concatenation is
the alert list in order; 23 alerts give sizes `[10, 10, 3]` and the
second notification's body states `'This is batch 2 of 3'`. -/
theorem c7_alert_dispatch :
    (∀ trends : List (String × String × Int),
      ((alertGroups trends).length : ℤ) = ⌈(trends.length : ℚ) / (10 : ℚ)⌉ ∧
      ((alertGroups trends).all fun g => g.length ≤ 10) = true ∧
      (alertGroups trends).flatten = trends ∧
      (alertNotifications "now 7-d" "" trends).length =
        (alertGroups trends).length) ∧
    (alertGroups ex23).map List.length = [10, 10, 3] ∧
    (∃ notif, (alertNotifications "now 7-d" "" ex23)[1]? = some notif ∧
      strContains notif.body (batchPhrase 2 3) = true) := by
  refine ⟨fun trends => ⟨?_, ?_, sliceBatches_flatten 10 (by decide) trends, ?_⟩,
    by decide, ?_⟩
  · rw [alertGroups, sliceBatches_length trends 10 (by decide)]
    exact (nat_ceil_div trends.length 10 (by decide)).symm
  · rw [List.all_eq_true]
    intro g hg
    simpa using sliceBatches_size_le trends 10 g hg
  · simp [alertNotifications, alertGroups, sliceBatches]
  · refine ⟨alertNotification "now 7-d" "" ex23 (1 * 10),
      alertNotifications_get "now 7-d" "" ex23 1 (by decide), ?_⟩
    exact alertNotification_body_marker "now 7-d" "" ex23 1 (by decide)

theorem process_keywords_batch_snd (fetch : List String →
    Except String (List (String × Option QueryData))) (threshold : Int)
    (b : List String) (st : RunState) :
    (process_keywords_batch fetch threshold b st).2 = (fetch b).isOk := by
  unfold process_keywords_batch
  cases fetch b <;> rfl

theorem process_keywords_batch_error (fetch : List String →
    Except String (List (String × Option QueryData))) (threshold : Int)
    (b : List String) (st : RunState) (e : String) (h : fetch b = .error e) :
    process_keywords_batch fetch threshold b st = (st, false) := by
  unfold process_keywords_batch
  rw [h]

theorem process_keywords_batch_not_ok (fetch : List String →
    Except String (List (String × Option QueryData))) (threshold : Int)
    (b : List String) (st : RunState) (h : (fetch b).isOk = false) :
    process_keywords_batch fetch threshold b st = (st, false) := by
  cases hfb : fetch b with
  | ok r =>
    rw [hfb] at h
    simp [Except.isOk, Except.toBool] at h
  | error e => exact process_keywords_batch_error fetch threshold b st e hfb

theorem processBatchesLoop_sleep_count (fetch : List String →
    Except String (List (String × Option QueryData)))
    (keywords : List String) (B : Nat) (threshold : Int)
    (batch_interval : ℚ) (jitter : Nat → ℚ) :
    ∀ (idxs : List Nat) (st : RunState),
      ((processBatchesLoop fetch keywords B threshold batch_interval jitter
          idxs st).2.countP RunEvent.isSleep) =
        (idxs.filter (fun i => (fetch (pySlice keywords i (i + B))).isOk &&
          decide (i + B < keywords.length))).length
  | [], st => by simp [processBatchesLoop]
  | i :: rest, st => by
    have ih := processBatchesLoop_sleep_count fetch keywords B threshold
      batch_interval jitter rest
    simp only [processBatchesLoop]
    rw [process_keywords_batch_snd]
    by_cases hok : (fetch (pySlice keywords i (i + B))).isOk
    · by_cases hlt : i + B < keywords.length <;>
        simp [hok, hlt, List.countP_cons, RunEvent.isSleep, List.filter_cons, ih]
    · have hfalse : (fetch (pySlice keywords i (i + B))).isOk = false := by
        simpa using hok
      simp [hfalse, List.countP_cons, RunEvent.isSleep, List.filter_cons, ih]

theorem processBatchesLoop_sleep_mem (fetch : List String →
    Except String (List (String × Option QueryData)))
    (keywords : List String) (B : Nat) (threshold : Int)
    (batch_interval : ℚ) (jitter : Nat → ℚ) :
    ∀ (idxs : List Nat) (st : RunState) (t : ℚ),
      RunEvent.sleepWait t ∈ (processBatchesLoop fetch keywords B threshold
        batch_interval jitter idxs st).2 →
      ∃ i ∈ idxs, t = batch_interval + jitter i ∧
        (fetch (pySlice keywords i (i + B))).isOk = true ∧
        i + B < keywords.length
  | [], st, t => by simp [processBatchesLoop]
  | i :: rest, st, t => by
    have ih := processBatchesLoop_sleep_mem fetch keywords B threshold
      batch_interval jitter rest
    simp only [processBatchesLoop]
    rw [process_keywords_batch_snd]
    by_cases hok : (fetch (pySlice keywords i (i + B))).isOk
    · by_cases hlt : i + B < keywords.length
      · simp only [hok, hlt, if_pos, if_true]
        intro hmem
        rcases List.mem_cons.mp hmem with h1 | hmem2
        · exact absurd h1 (by simp)
        rcases List.mem_cons.mp hmem2 with h2 | hmem3
        · refine ⟨i, List.mem_cons_self i rest, ?_, hok, hlt⟩
          injection h2
        · rcases ih _ t hmem3 with ⟨j, hj, ht, hokj, hltj⟩
          exact ⟨j, List.mem_cons_of_mem i hj, ht, hokj, hltj⟩
      · simp only [hok, hlt, if_true, if_false]
        intro hmem
        rcases List.mem_cons.mp hmem with h1 | hmem2
        · exact absurd h1 (by simp)
        · rcases ih _ t hmem2 with ⟨j, hj, ht, hokj, hltj⟩
          exact ⟨j, List.mem_cons_of_mem i hj, ht, hokj, hltj⟩
    · have hfalse : (fetch (pySlice keywords i (i + B))).isOk = false := by
        simpa using hok
      simp only [hfalse, Bool.false_eq_true, if_false]
      intro hmem
      rcases List.mem_cons.mp hmem with h1 | hmem2
      · exact absurd h1 (by simp)
      · rcases ih _ t hmem2 with ⟨j, hj, ht, hokj, hltj⟩
        exact ⟨j, List.mem_cons_of_mem i hj, ht, hokj, hltj⟩

theorem processBatchesLoop_state (fetch : List String →
    Except String (List (String × Option QueryData)))
    (keywords : List String) (B : Nat) (threshold : Int)
    (batch_interval : ℚ) (jitter : Nat → ℚ) :
    ∀ (idxs : List Nat) (st : RunState),
      (processBatchesLoop fetch keywords B threshold batch_interval jitter
          idxs st).1 =
        ((idxs.map (fun i => pySlice keywords i (i + B))).filter
          (fun b => (fetch b).isOk)).foldl
          (fun s b => (process_keywords_batch fetch threshold b s).1) st
  | [], st => by simp [processBatchesLoop]
  | i :: rest, st => by
    have ih := processBatchesLoop_state fetch keywords B threshold
      batch_interval jitter rest
    simp only [processBatchesLoop]
    rw [process_keywords_batch_snd]
    by_cases hok : (fetch (pySlice keywords i (i + B))).isOk
    · by_cases hlt : i + B < keywords.length <;>
        simp [hok, hlt, List.filter_cons, ih]
    · have hfalse : (fetch (pySlice keywords i (i + B))).isOk = false := by
        simpa using hok
      rw [process_keywords_batch_not_ok fetch threshold _ st hfalse]
      simp [hfalse, List.filter_cons, ih]

theorem batchEvents_cons_batch (b : List String) (s : Bool)
    (evs : List RunEvent) :
    batchEvents (RunEvent.batch b s :: evs) = b :: batchEvents evs := by
  simp [batchEvents, List.filterMap_cons]

theorem batchEvents_cons_sleep (t : ℚ) (evs : List RunEvent) :
    batchEvents (RunEvent.sleepWait t :: evs) = batchEvents evs := by
  simp [batchEvents, List.filterMap_cons]

theorem processBatchesLoop_batches (fetch : List String →
    Except String (List (String × Option QueryData)))
    (keywords : List String) (B : Nat) (threshold : Int)
    (batch_interval : ℚ) (jitter : Nat → ℚ) :
    ∀ (idxs : List Nat) (st : RunState),
      batchEvents (processBatchesLoop fetch keywords B threshold batch_interval
          jitter idxs st).2 =
        idxs.map (fun i => pySlice keywords i (i + B))
  | [], st => by simp [processBatchesLoop, batchEvents]
  | i :: rest, st => by
    have ih := processBatchesLoop_batches fetch keywords B threshold
      batch_interval jitter rest
    simp only [processBatchesLoop]
    rw [process_keywords_batch_snd]
    by_cases hok : (fetch (pySlice keywords i (i + B))).isOk
    · by_cases hlt : i + B < keywords.length <;>
        simp [hok, hlt, batchEvents_cons_batch, batchEvents_cons_sleep, ih]
    · have hfalse : (fetch (pySlice keywords i (i + B))).isOk = false := by
        simpa using hok
      simp [hfalse, batchEvents_cons_batch, batchEvents_cons_sleep, ih]

/-- A fetch that fails (after its retries) exactly on the batch
`["k1"]` and succeeds with no rows elsewhere. -/
def exFetchFailFirst :
    List String → Except String (List (String × Option QueryData)) :=
  fun b => if b = ["k1"] then .error "boom" else .ok []

/-- A fetch that always succeeds with no rows. -/
def exFetchOk : List String → Except String (List (String × Option QueryData)) :=
  fun _ => .ok []

/-- C3 (amended): the run sleeps `batch_interval + jitter` exactly once
after each *successfully processed* non-final batch — a failed batch is
`continue`d past the sleep — and every sleep that occurs has duration
`batch_interval + jitter i` for a successful non-final loop index `i`. -/
theorem c3_inter_batch_sleep (fetch : List String →
    Except String (List (String × Option QueryData)))
    (keywords : List String) (B : Nat) (threshold : Int)
    (batch_interval : ℚ) (jitter : Nat → ℚ) :
    ((process_trends_run fetch keywords B threshold batch_interval
        jitter).2.countP RunEvent.isSleep) =
      ((pyRangeStep keywords.length B).filter
        (fun i => (fetch (pySlice keywords i (i + B))).isOk &&
          decide (i + B < keywords.length))).length ∧
    (∀ t : ℚ, RunEvent.sleepWait t ∈ (process_trends_run fetch keywords B
        threshold batch_interval jitter).2 →
      ∃ i ∈ pyRangeStep keywords.length B, t = batch_interval + jitter i ∧
        (fetch (pySlice keywords i (i + B))).isOk = true ∧
        i + B < keywords.length) :=
  ⟨processBatchesLoop_sleep_count fetch keywords B threshold batch_interval
      jitter (pyRangeStep keywords.length B) initialRunState,
   fun t ht => processBatchesLoop_sleep_mem fetch keywords B threshold
      batch_interval jitter (pyRangeStep keywords.length B) initialRunState
      t ht⟩

/-- C3 counterexample: two one-keyword batches, the first batch's
processing fails — the run's event trace is just the two batch events,
with *no* sleep between them, although the claim requires a
`batch_interval + jitter` sleep after the failed non-final batch. -/
theorem c3_counterexample :
    process_trends_run exFetchFailFirst ["k1", "k2"] 1 500 300 (fun _ => 0) =
      (initialRunState,
        [RunEvent.batch ["k1"] false, RunEvent.batch ["k2"] true]) ∧
    ((process_trends_run exFetchFailFirst ["k1", "k2"] 1 500 300
        (fun _ => 0)).2.countP RunEvent.isSleep) = 0 := by
  refine ⟨by decide, by decide⟩

/-- A constant jitter draw of 7 seconds. -/
def exJitter7 : Nat → ℚ := fun _ => 7

/-- Witness for C3 at an all-successful two-batch run with jitter 7:
the sleep count matches the successful non-final batches, and the sleep
of duration `300 + 7` in the trace is accounted for by loop index 0. -/
theorem c3_inter_batch_sleep_witness :
    ((process_trends_run exFetchOk ["k1", "k2"] 1 500 300
        exJitter7).2.countP RunEvent.isSleep) =
      ((pyRangeStep (["k1", "k2"] : List String).length 1).filter
        (fun i => (exFetchOk (pySlice ["k1", "k2"] i (i + 1))).isOk &&
          decide (i + 1 < (["k1", "k2"] : List String).length))).length ∧
    (∃ i ∈ pyRangeStep (["k1", "k2"] : List String).length 1,
      300 + exJitter7 0 = 300 + exJitter7 i ∧
      (exFetchOk (pySlice ["k1", "k2"] i (i + 1))).isOk = true ∧
      i + 1 < (["k1", "k2"] : List String).length) :=
  ⟨(c3_inter_batch_sleep exFetchOk ["k1", "k2"] 1 500 300 exJitter7).1,
   (c3_inter_batch_sleep exFetchOk ["k1", "k2"] 1 500 300 exJitter7).2
     (300 + exJitter7 0)
     (by
       simp [process_trends_run, processBatchesLoop, process_keywords_batch,
         exFetchOk, exJitter7, pyRangeStep, pySlice, initialRunState,
         List.range_succ])⟩

/-- C9: a batch whose fetch fails leaves the accumulators untouched and
reports failure; the run still attempts every batch in order (the batch
events are exactly the slices); and the final accumulated state is the
fold over the *successful* batches only — unaffected by failed ones. -/
theorem c9_failed_batch_isolation (fetch : List String →
    Except String (List (String × Option QueryData)))
    (keywords : List String) (B : Nat) (threshold : Int)
    (batch_interval : ℚ) (jitter : Nat → ℚ) :
    (∀ (b : List String) (st : RunState) (e : String), fetch b = .error e →
      process_keywords_batch fetch threshold b st = (st, false)) ∧
    batchEvents (process_trends_run fetch keywords B threshold batch_interval
        jitter).2 = sliceBatches keywords B ∧
    (process_trends_run fetch keywords B threshold batch_interval jitter).1 =
      ((sliceBatches keywords B).filter (fun b => (fetch b).isOk)).foldl
        (fun s b => (process_keywords_batch fetch threshold b s).1)
        initialRunState :=
  ⟨fun b st e h => process_keywords_batch_error fetch threshold b st e h,
   processBatchesLoop_batches fetch keywords B threshold batch_interval jitter
     (pyRangeStep keywords.length B) initialRunState,
   processBatchesLoop_state fetch keywords B threshold batch_interval jitter
     (pyRangeStep keywords.length B) initialRunState⟩

/-- Witness for C9: the failing batch `["k1"]` leaves the state unchanged
with a `False` flag, and the two-batch run still attempts both batches. -/
theorem c9_failed_batch_isolation_witness :
    process_keywords_batch exFetchFailFirst 500 ["k1"] initialRunState =
      (initialRunState, false) ∧
    batchEvents (process_trends_run exFetchFailFirst ["k1", "k2"] 1 500 300
        (fun _ => 0)).2 = sliceBatches ["k1", "k2"] 1 :=
  ⟨(c9_failed_batch_isolation exFetchFailFirst ["k1", "k2"] 1 500 300
      (fun _ => 0)).1 ["k1"] initialRunState "boom" rfl,
   (c9_failed_batch_isolation exFetchFailFirst ["k1", "k2"] 1 500 300
      (fun _ => 0)).2.1⟩

end TrendsMonitor
